import Mathlib

/-!
Verification development for the Slotenbot record store, formatter and
form-session commit step (src/Slotenbot.py).

The SQLite-backed record store is modelled as an explicit list of rows kept
in insertion (rowid) order, together with the AUTOINCREMENT counter.  Each
store function of the source is translated into a pure function on this
state; operations that raise (`sqlite3.IntegrityError` on the
`UNIQUE(message_id, chat_id)` constraint, `ValueError` on the field
allow-list) return `Except`.  `ORDER BY date_creation DESC` is modelled as a
stable merge sort of the rows in storage order, which is the deterministic
order an index scan over equal keys produces.  Python text is modelled as
`List Char`; `str.strip`, `str.split`, `str.replace` and `str.startswith`
are given as executable functions on character lists.
-/

set_option linter.unusedVariables false

namespace Slotenbot

/-- Database row of the `retours` table, in column order:
`(id, message_id, chat_id, nom_client, adresse, description, materiel,
date, date_creation, statut)`.  `date_creation` is the server-assigned
creation timestamp (`CURRENT_TIMESTAMP`), modelled as a `Nat` so that the
`ORDER BY date_creation DESC` comparison is numeric. -/
structure Retour where
  id : Nat
  message_id : Int
  chat_id : Int
  nom_client : String
  adresse : String
  description : String
  materiel : String
  date : String
  date_creation : Nat
  statut : String
deriving DecidableEq, Repr

/-- The persistent store: rows in insertion (rowid) order plus the
AUTOINCREMENT counter. -/
structure Database where
  rows : List Retour
  nextId : Nat
deriving DecidableEq, Repr

/-- Errors surfaced by the store: the `UNIQUE(message_id, chat_id)`
constraint violation (`sqlite3.IntegrityError`) and the field allow-list
rejection (`ValueError` in `update_retour_in_db`). -/
inductive DbError where
  | duplicateKey : DbError
  | invalidField : String → DbError
deriving DecidableEq, Repr

/-- The state created by `init_database`: an empty `retours` table, with
AUTOINCREMENT starting at 1. -/
def init_database : Database := { rows := [], nextId := 1 }

/-- The `WHERE message_id = ? AND chat_id = ?` addressing predicate used by
every row-scoped statement of the source. -/
def retourKey (message_id chat_id : Int) (r : Retour) : Bool :=
  decide (r.message_id = message_id ∧ r.chat_id = chat_id)

/-- Source `add_retour_to_db`: `INSERT INTO retours (message_id, chat_id,
nom_client, adresse, description, materiel, date, statut) VALUES
(?,?,?,?,?,?,?,?)` with statut `"en_attente"`; the
`UNIQUE(message_id, chat_id)` constraint makes the insert fail on a
duplicate key.  `now` is the server clock value stored into
`date_creation` by the column default. -/
def add_retour_to_db (db : Database) (message_id chat_id : Int)
    (nom adresse description materiel date : String) (now : Nat) :
    Except DbError Database :=
  if db.rows.any (retourKey message_id chat_id) then
    .error .duplicateKey
  else
    .ok { rows := db.rows ++
            [{ id := db.nextId, message_id := message_id, chat_id := chat_id,
               nom_client := nom, adresse := adresse, description := description,
               materiel := materiel, date := date, date_creation := now,
               statut := "en_attente" }],
          nextId := db.nextId + 1 }

/-- The allow-list of mutable columns in `update_retour_in_db`. -/
def ALLOWED_FIELDS : List String :=
  ["description", "materiel", "nom_client", "adresse", "date"]

/-- Writing one allow-listed column of a row (the `SET {field} = ?` part of
the UPDATE built by `update_retour_in_db`). -/
def setRetourField (r : Retour) (field value : String) : Retour :=
  if field = "description" then { r with description := value }
  else if field = "materiel" then { r with materiel := value }
  else if field = "nom_client" then { r with nom_client := value }
  else if field = "adresse" then { r with adresse := value }
  else if field = "date" then { r with date := value }
  else r

/-- Source `update_retour_in_db`: raises `ValueError` unless `field` is in
`ALLOWED_FIELDS`, otherwise runs `UPDATE retours SET {field} = ? WHERE
message_id = ? AND chat_id = ?`. -/
def update_retour_in_db (db : Database) (message_id chat_id : Int)
    (field value : String) : Except DbError Database :=
  if field ∈ ALLOWED_FIELDS then
    .ok { db with rows := db.rows.map (fun r =>
            if retourKey message_id chat_id r then setRetourField r field value
            else r) }
  else
    .error (.invalidField field)

/-- Source `delete_retour_from_db`: `DELETE FROM retours WHERE
message_id = ? AND chat_id = ?`. -/
def delete_retour_from_db (db : Database) (message_id chat_id : Int) :
    Database :=
  { db with rows := db.rows.filter (fun r => !retourKey message_id chat_id r) }

/-- Source `update_statut_in_db`: `UPDATE retours SET statut = ? WHERE
message_id = ? AND chat_id = ?`. -/
def update_statut_in_db (db : Database) (message_id chat_id : Int)
    (statut : String) : Database :=
  { db with rows := db.rows.map (fun r =>
      if retourKey message_id chat_id r then { r with statut := statut }
      else r) }

/-- Source `get_retour_by_message_id`: `SELECT * FROM retours WHERE
message_id = ? AND chat_id = ?` with `fetchone()`. -/
def get_retour_by_message_id (db : Database) (message_id chat_id : Int) :
    Option Retour :=
  db.rows.find? (retourKey message_id chat_id)

/-- Comparison realising `ORDER BY date_creation DESC`: `a` may precede `b`
when `a`'s creation timestamp is not older. -/
def dateLe (a b : Retour) : Bool :=
  decide (b.date_creation ≤ a.date_creation)

/-- Source `get_all_retours`: `SELECT * FROM retours WHERE chat_id = ?
ORDER BY date_creation DESC`, modelled as a stable sort of the group's rows
in storage order. -/
def get_all_retours (db : Database) (chat_id : Int) : List Retour :=
  List.mergeSort (db.rows.filter (fun r => decide (r.chat_id = chat_id))) dateLe

/-- Source `get_retours_paginated`: counts the group's rows, then selects
`ORDER BY date_creation DESC LIMIT per_page OFFSET page*per_page`, and
computes `total_pages = (total + per_page - 1) // per_page if total > 0
else 0`.  Returns `(retours_list, total, total_pages)`. -/
def get_retours_paginated (db : Database) (chat_id : Int)
    (page per_page : Nat) : List Retour × Nat × Nat :=
  let offset := page * per_page
  let total := (db.rows.filter (fun r => decide (r.chat_id = chat_id))).length
  let sorted := List.mergeSort
    (db.rows.filter (fun r => decide (r.chat_id = chat_id))) dateLe
  let retours_list := (sorted.drop offset).take per_page
  let total_pages := if total > 0 then (total + per_page - 1) / per_page else 0
  (retours_list, total, total_pages)

/-- Whitespace characters removed by Python `str.strip()` (the ASCII
whitespace set). -/
def pyIsSpace (c : Char) : Bool :=
  c = ' ' || c = '\t' || c = '\n' || c = '\r' || c = '\x0b' || c = '\x0c'

/-- Python `str.strip()`: drop whitespace from both ends. -/
def pyStrip (s : List Char) : List Char :=
  ((s.dropWhile pyIsSpace).reverse.dropWhile pyIsSpace).reverse

/-- Python `text.split('\n')`: split on every newline; `"".split('\n')`
is `[""]`. -/
def pySplitLines : List Char → List (List Char)
  | [] => [[]]
  | c :: cs =>
    if c = '\n' then [] :: pySplitLines cs
    else
      match pySplitLines cs with
      | [] => [[c]]
      | l :: ls => (c :: l) :: ls

/-- Python `s.replace(tok, new)` for a non-empty `tok`: replace every
non-overlapping occurrence, scanning left to right without rescanning the
replacement. -/
def pyReplace (tok new : List Char) : List Char → List Char
  | [] => []
  | c :: cs =>
    if h : tok.isPrefixOf (c :: cs) ∧ tok ≠ [] then
      new ++ pyReplace tok new (List.drop tok.length (c :: cs))
    else
      c :: pyReplace tok new cs
termination_by s => s.length
decreasing_by
  · simp only [List.length_drop, List.length_cons]
    have : 0 < tok.length := List.length_pos.mpr h.2
    omega
  · simp

/-- Python dict assignment `d[k] = v`: overwrite in place if the key is
present, else append (insertion order preserved). -/
def dictSet (k : String) (v : List Char) :
    List (String × List Char) → List (String × List Char)
  | [] => [(k, v)]
  | (k', v') :: rest =>
    if k = k' then (k, v) :: rest else (k', v') :: dictSet k v rest

/-- Python dict lookup `d.get(k)`: the value stored under `k`, if any. -/
def dictGet (k : String) : List (String × List Char) → Option (List Char)
  | [] => none
  | (k', v) :: rest => if k = k' then some v else dictGet k rest

/-- Decimal rendering of a natural number (Python `f"{n}"`). -/
def natToChars (n : Nat) : List Char :=
  if n < 10 then [Char.ofNat (n + 48)]
  else natToChars (n / 10) ++ [Char.ofNat (n % 10 + 48)]
termination_by n
decreasing_by
  have : 10 ≤ n := Nat.le_of_not_lt (by assumption)
  exact Nat.div_lt_self (by omega) (by omega)

/-- Python `f"{n:02d}"`: decimal rendering padded to two digits. -/
def pad2 (n : Nat) : List Char :=
  if n < 10 then '0' :: natToChars n else natToChars n

/-- The Dutch month abbreviations (`mois_nl`). -/
def mois_nl : List (List Char) :=
  ["jan".data, "feb".data, "mrt".data, "apr".data, "mei".data, "jun".data,
   "jul".data, "aug".data, "sep".data, "okt".data, "nov".data, "dec".data]

/-- Digit value of one ASCII digit character. -/
def digitVal (c : Char) : Nat := c.toNat - 48

/-- Python `datetime.strptime(s, '%Y-%m-%d %H:%M:%S')` on the canonical
SQLite `CURRENT_TIMESTAMP` shape `YYYY-MM-DD HH:MM:SS`; any other input,
or out-of-range components, raises `ValueError` (`none` here). -/
def strptimeYmdHMS (s : List Char) :
    Option (Nat × Nat × Nat × Nat × Nat × Nat) :=
  match s with
  | [y1, y2, y3, y4, '-', mo1, mo2, '-', d1, d2, ' ',
     h1, h2, ':', mi1, mi2, ':', s1, s2] =>
    if ([y1, y2, y3, y4, mo1, mo2, d1, d2, h1, h2, mi1, mi2, s1, s2].all
          (fun c => c.isDigit)) then
      let year := ((digitVal y1 * 10 + digitVal y2) * 10 + digitVal y3) * 10 +
        digitVal y4
      let month := digitVal mo1 * 10 + digitVal mo2
      let day := digitVal d1 * 10 + digitVal d2
      let hour := digitVal h1 * 10 + digitVal h2
      let minute := digitVal mi1 * 10 + digitVal mi2
      let sec := digitVal s1 * 10 + digitVal s2
      if 1 ≤ month ∧ month ≤ 12 ∧ 1 ≤ day ∧ day ≤ 31 ∧ hour ≤ 23 ∧
          minute ≤ 59 ∧ sec ≤ 61 then
        some (year, month, day, hour, minute, sec)
      else none
    else none
  | _ => none

/-- Source `format_date_creation`: `"Onbekend"` for a missing/empty
timestamp; otherwise parse `date_creation_str.split('.')[0]` with
`strptime` and render `"{day} {mois} {year} om {hour:02d}:{minute:02d}"`;
on a parse failure fall back to the raw string. -/
def format_date_creation (date_creation_str : Option (List Char)) :
    List Char :=
  match date_creation_str with
  | none => "Onbekend".data
  | some s =>
    if s = [] then "Onbekend".data
    else
      match strptimeYmdHMS (s.takeWhile (fun c => c ≠ '.')) with
      | some (year, month, day, hour, minute, _) =>
        natToChars day ++ " ".data ++ mois_nl.getD (month - 1) [] ++
          " ".data ++ natToChars year ++ " om ".data ++ pad2 hour ++
          ":".data ++ pad2 minute
      | none => s

/-- Source `format_retour_message` (the record renderer): status glyph and
label, `Adres`/`Materiaal` lines, the `Extra informatie` line only when
`extra_info` is truthy, then status and creation-date lines.  The
`description` argument exists in the source signature but is not rendered. -/
def format_retour_message (adresse description materiel : List Char)
    (statut : List Char) (date_creation : Option (List Char))
    (extra_info : Option (List Char)) : List Char :=
  let status_emoji := if statut = "fait".data then "✅".data else "⏳".data
  let status_text :=
    if statut = "fait".data then "Gedaan".data else "In afwachting".data
  let message := "🔁 AFWERKING\n\n".data
  let message := message ++ "Adres : ".data ++ adresse ++ "\n".data
  let message := message ++ "Materiaal : ".data ++ materiel ++ "\n".data
  let message :=
    match extra_info with
    | some e => if e ≠ [] then
        message ++ "Extra informatie : ".data ++ e ++ "\n".data
      else message
    | none => message
  let message := message ++ status_emoji ++ " Status : ".data ++
    status_text ++ "\n".data
  message ++ "📅 Gemaakt op : ".data ++ format_date_creation date_creation

/-- One iteration of the parsing loop in `parse_retour_message`: strip the
line, test the recognised prefixes in source order, and on a match store
the de-prefixed, re-stripped remainder under the matching key. -/
def parse_line (data : List (String × List Char)) (line : List Char) :
    List (String × List Char) :=
  let line := pyStrip line
  if "Klant :".data.isPrefixOf line then
    dictSet "nom" (pyStrip (pyReplace "Klant :".data [] line)) data
  else if "Adres :".data.isPrefixOf line then
    dictSet "adresse" (pyStrip (pyReplace "Adres :".data [] line)) data
  else if "Te doen :".data.isPrefixOf line then
    dictSet "description" (pyStrip (pyReplace "Te doen :".data [] line)) data
  else if "Extra informatie :".data.isPrefixOf line then
    dictSet "extra_info"
      (pyStrip (pyReplace "Extra informatie :".data [] line)) data
  else if "Materiaal :".data.isPrefixOf line then
    dictSet "materiel" (pyStrip (pyReplace "Materiaal :".data [] line)) data
  else data

/-- Source `parse_retour_message`: split the text on newlines and fold the
line parser over the lines, starting from the empty dict. -/
def parse_retour_message (message_text : List Char) :
    List (String × List Char) :=
  (pySplitLines message_text).foldl parse_line []

/-- Truthiness of one fetched column value: SQL `NULL` (`none`) and the
empty string are falsy, as in Python. -/
def pyTruthyCell : Option String → Bool
  | none => false
  | some s => decide (s ≠ "")

/-- Source `get_statut_from_retour`: `if len(retour) > 9 and retour[9]:
return retour[9]; return "en_attente"`.  The raw row is a positional tuple,
modelled as a list of nullable column values. -/
def get_statut_from_retour (retour : List (Option String)) : String :=
  if 9 < retour.length && pyTruthyCell (retour.getD 9 none) then
    match retour.getD 9 none with
    | some s => s
    | none => "en_attente"
  else "en_attente"

/-- The form session's accumulator (`context.user_data['retour']`) as it
stands when the terminal `COLLECTING_EXTRA_INFO` step runs: address and
materials collected, extra info possibly absent. -/
structure RetourAccum where
  adresse : String
  materiel : String
  extra_info : Option String
deriving DecidableEq, Repr

/-- Observable outcome of the terminal step `collect_extra_info`:
the surviving `user_data` accumulator (`none` after
`context.user_data.clear()`), the store, whether the failure notice was
sent, and whether a record was committed. -/
structure CollectExtraResult where
  user_data : Option RetourAccum
  db : Database
  error_surfaced : Bool
  record_created : Bool
deriving DecidableEq, Repr

/-- Source `collect_extra_info`, the commit step of the form session.
`input = none` models the `passer_extra_info` (skip) button; `some t`
models a text message whose stripped text is `t`.  A non-empty text is
stored into the accumulator; the insert then uses
`retour.get('extra_info', '')` as the `description` column and commits via
`add_retour_to_db` against the message `temp_message_id` posted in group
`group_chat_id`.  A failing insert is caught by the surrounding
`except`, which sends the failure notice; `context.user_data.clear()`
runs on both the success and the failure path. -/
def collect_extra_info (acc : RetourAccum) (input : Option String)
    (db : Database) (temp_message_id group_chat_id : Int) (now : Nat) :
    CollectExtraResult :=
  let acc :=
    match input with
    | none => acc
    | some t => if t ≠ "" then { acc with extra_info := some t } else acc
  let extra_info_value := acc.extra_info.getD ""
  match add_retour_to_db db temp_message_id group_chat_id ""
      acc.adresse extra_info_value acc.materiel "Non définie" now with
  | .ok db2 =>
    { user_data := none, db := db2, error_surfaced := false,
      record_created := true }
  | .error _ =>
    { user_data := none, db := db, error_surfaced := true,
      record_created := false }

/-- Concrete store reached from `init_database` by creating the record
`(message_id 5, chat_id 100)` (the isolation example of the spec). -/
def db_c1 : Database :=
  { rows := [{ id := 1, message_id := 5, chat_id := 100, nom_client := "",
               adresse := "12 Oak St", description := "", materiel := "drill",
               date := "Non définie", date_creation := 1,
               statut := "en_attente" }],
    nextId := 2 }

/-- Concrete store with one record, used to exercise the duplicate-key
path. -/
def db_c6 : Database :=
  { rows := [{ id := 1, message_id := 50, chat_id := 7, nom_client := "",
               adresse := "x", description := "", materiel := "y",
               date := "d", date_creation := 10, statut := "en_attente" }],
    nextId := 2 }

/-- Concrete store holding two records of the same group whose
`date_creation` timestamps collide, created in the order id 1 then id 2. -/
def db_c5 : Database :=
  { rows := [{ id := 1, message_id := 10, chat_id := 7, nom_client := "",
               adresse := "a", description := "", materiel := "m",
               date := "d", date_creation := 100, statut := "en_attente" },
             { id := 2, message_id := 11, chat_id := 7, nom_client := "",
               adresse := "b", description := "", materiel := "m",
               date := "d", date_creation := 100, statut := "en_attente" }],
    nextId := 3 }

/-- The intermediate store between the two creations leading to `db_c5`. -/
def db_c5_mid : Database :=
  { rows := [{ id := 1, message_id := 10, chat_id := 7, nom_client := "",
               adresse := "a", description := "", materiel := "m",
               date := "d", date_creation := 100, statut := "en_attente" }],
    nextId := 2 }

/-- A filled accumulator used by the commit-failure examples. -/
def acc_c9 : RetourAccum :=
  { adresse := "12 Oak St", materiel := "drill", extra_info := none }

/-! Helper lemmas shared by several claims. -/

/-- Setting the `statut` column does not change the addressing key. -/
theorem retourKey_set_statut (m c : Int) (r : Retour) (s : String) :
    retourKey m c { r with statut := s } = retourKey m c r := rfl

/-- A row matching no addressed key is left untouched by a scoped UPDATE or
DELETE: mapping the scoped update over rows none of which match is the
identity. -/
theorem map_scoped_eq_self {l : List Retour} {p : Retour → Bool}
    {f : Retour → Retour} (h : ∀ r ∈ l, p r = false) :
    l.map (fun r => if p r then f r else r) = l := by
  conv_rhs => rw [← List.map_id l]
  exact List.map_congr_left (fun r hr => by simp [h r hr])

/-- Claim C2: `update_retour_in_db` rejects every field name outside the
allow-list `{description, materiel, nom_client, adresse, date}` with the
`ValueError` (`InvalidField`) raised to the caller — leaving the store
untouched, since the rejection happens before any write — and accepts
every allow-listed field name without that error. -/
theorem update_field_allowlist (db : Database) (m c : Int)
    (field value : String) :
    (field ∉ ALLOWED_FIELDS →
      update_retour_in_db db m c field value = .error (.invalidField field))
    ∧ (field ∈ ALLOWED_FIELDS →
      ∃ db2, update_retour_in_db db m c field value = .ok db2) := by
  constructor
  · intro h
    simp [update_retour_in_db, h]
  · intro h
    refine ⟨{ db with rows := db.rows.map (fun r =>
        if retourKey m c r then setRetourField r field value else r) }, ?_⟩
    simp [update_retour_in_db, h]

/-- Witness for C2 at the spec's own example: `chat_id` is rejected with
`InvalidField`, while the allow-listed `adresse` is accepted. -/
theorem update_field_allowlist_witness :
    ("chat_id" ∉ ALLOWED_FIELDS ∧
      update_retour_in_db db_c1 5 100 "chat_id" "9999" =
        .error (.invalidField "chat_id"))
    ∧ ("adresse" ∈ ALLOWED_FIELDS ∧
      ∃ db2, update_retour_in_db db_c1 5 100 "adresse" "1 Main St" = .ok db2) :=
  ⟨⟨by decide,
    (update_field_allowlist db_c1 5 100 "chat_id" "9999").1 (by decide)⟩,
   ⟨by decide,
    (update_field_allowlist db_c1 5 100 "adresse" "1 Main St").2 (by decide)⟩⟩

/-- Claim C3: `update_statut_in_db` is idempotent — repeating the same
status write is a no-op on the store — it never changes the number of rows
(no duplicate is created, and the call cannot fail), and afterwards the
addressed record, if present, carries exactly the written status. -/
theorem update_status_idempotent (db : Database) (m c : Int) (s : String) :
    update_statut_in_db (update_statut_in_db db m c s) m c s =
      update_statut_in_db db m c s
    ∧ (update_statut_in_db db m c s).rows.length = db.rows.length
    ∧ ∀ r, get_retour_by_message_id (update_statut_in_db db m c s) m c =
        some r → r.statut = s := by
  refine ⟨?_, ?_, ?_⟩
  · have hmap : ∀ l : List Retour,
        ((l.map (fun r => if retourKey m c r then { r with statut := s }
            else r)).map (fun r => if retourKey m c r then
            { r with statut := s } else r)) =
        l.map (fun r => if retourKey m c r then { r with statut := s }
            else r) := by
      intro l
      rw [List.map_map]
      apply List.map_congr_left
      intro r hr
      by_cases h : retourKey m c r
      · simp [Function.comp, h, retourKey_set_statut]
      · simp [Function.comp, h]
    simp only [update_statut_in_db]
    rw [hmap]
  · simp [update_statut_in_db]
  · intro r h
    have hk : retourKey m c r = true := List.find?_some h
    have hm : r ∈ (update_statut_in_db db m c s).rows :=
      List.mem_of_find?_eq_some h
    simp only [update_statut_in_db, List.mem_map] at hm
    obtain ⟨r0, hr0, rfl⟩ := hm
    by_cases h0 : retourKey m c r0
    · simp [h0]
    · rw [if_neg (by simpa using h0)] at hk
      exact absurd hk (by simpa using h0)

/-- Witness for C3: starting from a concrete one-record store, writing
status `"fait"` twice equals writing it once, the row count stays 1, and
the record reads back with status `"fait"`. -/
theorem update_status_idempotent_witness :
    update_statut_in_db (update_statut_in_db db_c6 50 7 "fait") 50 7 "fait" =
      update_statut_in_db db_c6 50 7 "fait"
    ∧ (update_statut_in_db db_c6 50 7 "fait").rows.length = db_c6.rows.length
    ∧ ∀ r, get_retour_by_message_id (update_statut_in_db db_c6 50 7 "fait")
        50 7 = some r → r.statut = "fait" :=
  update_status_idempotent db_c6 50 7 "fait"

/-- Claim C6: creating a record whose `(message_id, chat_id)` key already
exists fails with the duplicate-key error and (the caller's store being
returned untouched) inserts nothing; creating with a fresh key appends
exactly one new row, with status `"en_attente"` and the requested key, and
leaves all previous rows in place. -/
theorem create_duplicate_key (db : Database) (m c : Int)
    (nom adr desc mat dt : String) (now : Nat) :
    ((∃ r ∈ db.rows, retourKey m c r) →
      add_retour_to_db db m c nom adr desc mat dt now = .error .duplicateKey)
    ∧ ((¬ ∃ r ∈ db.rows, retourKey m c r) →
      ∃ db2 newRow,
        add_retour_to_db db m c nom adr desc mat dt now = .ok db2 ∧
        db2.rows = db.rows ++ [newRow] ∧
        newRow.statut = "en_attente" ∧
        newRow.message_id = m ∧ newRow.chat_id = c) := by
  constructor
  · intro h
    have hany : db.rows.any (retourKey m c) = true := List.any_eq_true.mpr h
    simp [add_retour_to_db, hany]
  · intro h
    have hany : db.rows.any (retourKey m c) = false := by
      rw [List.any_eq_false]
      intro r hr hk
      exact h ⟨r, hr, hk⟩
    refine ⟨{ rows := db.rows ++
                [{ id := db.nextId, message_id := m, chat_id := c,
                   nom_client := nom, adresse := adr, description := desc,
                   materiel := mat, date := dt, date_creation := now,
                   statut := "en_attente" }],
              nextId := db.nextId + 1 },
      { id := db.nextId, message_id := m, chat_id := c, nom_client := nom,
        adresse := adr, description := desc, materiel := mat, date := dt,
        date_creation := now, statut := "en_attente" },
      ?_, rfl, rfl, rfl, rfl⟩
    simp [add_retour_to_db, hany]

/-- Witness for C6: on `db_c6` the key `(50, 7)` is taken, so a second
create with it fails; the fresh key `(51, 7)` is accepted and appends one
pending row. -/
theorem create_duplicate_key_witness :
    ((∃ r ∈ db_c6.rows, retourKey 50 7 r) ∧
      add_retour_to_db db_c6 50 7 "" "a" "" "m" "d" 11 = .error .duplicateKey)
    ∧ ((¬ ∃ r ∈ db_c6.rows, retourKey 51 7 r) ∧
      ∃ db2 newRow,
        add_retour_to_db db_c6 51 7 "" "a" "" "m" "d" 11 = .ok db2 ∧
        db2.rows = db_c6.rows ++ [newRow] ∧
        newRow.statut = "en_attente" ∧
        newRow.message_id = 51 ∧ newRow.chat_id = 7) :=
  ⟨⟨by decide, (create_duplicate_key db_c6 50 7 "" "a" "" "m" "d" 11).1
      (by decide)⟩,
   ⟨by decide, (create_duplicate_key db_c6 51 7 "" "a" "" "m" "d" 11).2
      (by decide)⟩⟩

/-- Claim C10: the status accessor returns the pending default
`"en_attente"` when the row has no tenth column (pre-migration rows), or
when that column is NULL or empty; otherwise it returns the stored status
string unchanged. -/
theorem statut_default_pending (retour : List (Option String)) :
    (retour.length ≤ 9 → get_statut_from_retour retour = "en_attente")
    ∧ (retour.getD 9 none = none →
        get_statut_from_retour retour = "en_attente")
    ∧ (retour.getD 9 none = some "" →
        get_statut_from_retour retour = "en_attente")
    ∧ (∀ s, retour.getD 9 none = some s → s ≠ "" →
        get_statut_from_retour retour = s) := by
  refine ⟨?_, ?_, ?_, ?_⟩
  · intro h
    simp [get_statut_from_retour, Nat.not_lt.mpr h]
  · intro h
    simp only [get_statut_from_retour, h]
    simp [pyTruthyCell]
  · intro h
    simp only [get_statut_from_retour, h]
    simp [pyTruthyCell]
  · intro s hs hne
    have hlen : 9 < retour.length := by
      by_contra hle
      rw [List.getD_eq_default _ _ (Nat.le_of_not_lt hle)] at hs
      exact Option.noConfusion hs
    simp only [get_statut_from_retour, hs]
    simp [pyTruthyCell, hlen, hne]

/-- Witness for C10 at four concrete rows: a short pre-migration row, a
NULL status, an empty status, and a stored `"fait"`. -/
theorem statut_default_pending_witness :
    get_statut_from_retour [] = "en_attente"
    ∧ get_statut_from_retour
        [none, none, none, none, none, none, none, none, none, none] =
        "en_attente"
    ∧ get_statut_from_retour
        [none, none, none, none, none, none, none, none, none, some ""] =
        "en_attente"
    ∧ get_statut_from_retour
        [none, none, none, none, none, none, none, none, none, some "fait"] =
        "fait" :=
  ⟨(statut_default_pending []).1 (by decide),
   (statut_default_pending _).2.1 rfl,
   (statut_default_pending _).2.2.1 rfl,
   (statut_default_pending _).2.2.2 "fait" rfl (by decide)⟩

/-- Claim C1: with both the reads and the writes of the store scoped by
`(message_id, chat_id)`, a record created under group `G1` is invisible
and untouchable from a different group `G2`: `get` under `G2` stays
not-found, the `G2` listing is unchanged and only ever shows `G2` rows,
and status update, field update and delete addressed under `G2` modify or
remove zero rows. -/
theorem group_isolation (db : Database) (G1 G2 X : Int)
    (nom adr desc mat dt : String) (now : Nat) (db2 : Database)
    (hne : G1 ≠ G2)
    (hclean : ∀ r ∈ db.rows, ¬ (r.message_id = X ∧ r.chat_id = G2))
    (hadd : add_retour_to_db db X G1 nom adr desc mat dt now = .ok db2) :
    get_retour_by_message_id db2 X G2 = none
    ∧ (∀ page per_page,
        get_retours_paginated db2 G2 page per_page =
          get_retours_paginated db G2 page per_page)
    ∧ (∀ page per_page, ∀ r ∈ (get_retours_paginated db2 G2 page per_page).1,
        r.chat_id = G2)
    ∧ (∀ statut, update_statut_in_db db2 X G2 statut = db2)
    ∧ (∀ field value db3,
        update_retour_in_db db2 X G2 field value = .ok db3 → db3 = db2)
    ∧ delete_retour_from_db db2 X G2 = db2 := by
  by_cases hany : db.rows.any (retourKey X G1)
  · simp [add_retour_to_db, hany] at hadd
  · simp only [add_retour_to_db, hany, Bool.false_eq_true, if_false,
      Except.ok.injEq] at hadd
    have hrows : db2.rows = db.rows ++
        [{ id := db.nextId, message_id := X, chat_id := G1, nom_client := nom,
           adresse := adr, description := desc, materiel := mat, date := dt,
           date_creation := now, statut := "en_attente" }] := by
      rw [← hadd]
    have hkey : ∀ r ∈ db2.rows, retourKey X G2 r = false := by
      intro r hr
      rw [hrows] at hr
      rcases List.mem_append.mp hr with h | h
      · exact decide_eq_false (by
          intro hc
          exact hclean r h hc)
      · simp only [List.mem_singleton] at h
        subst h
        exact decide_eq_false (by
          intro hc
          exact hne hc.2)
    have hfilter : db2.rows.filter (fun r => decide (r.chat_id = G2)) =
        db.rows.filter (fun r => decide (r.chat_id = G2)) := by
      rw [hrows, List.filter_append]
      have : List.filter (fun (r : Retour) => decide (r.chat_id = G2))
          [{ id := db.nextId, message_id := X, chat_id := G1,
             nom_client := nom, adresse := adr, description := desc,
             materiel := mat, date := dt, date_creation := now,
             statut := "en_attente" }] = [] := by
        simp [List.filter, hne]
      rw [this, List.append_nil]
    refine ⟨?_, ?_, ?_, ?_, ?_, ?_⟩
    · exact List.find?_eq_none.mpr (fun r hr => by simp [hkey r hr])
    · intro page per_page
      simp only [get_retours_paginated, hfilter]
    · intro page per_page r hr
      simp only [get_retours_paginated] at hr
      have hr2 := List.mem_of_mem_drop (List.mem_of_mem_take hr)
      have hr3 := (List.mergeSort_perm _ dateLe).mem_iff.mp hr2
      have := (List.mem_filter.mp hr3).2
      exact of_decide_eq_true this
    · intro statut
      show ({ db2 with rows := _ } : Database) = db2
      rw [map_scoped_eq_self hkey]
    · intro field value db3 h
      by_cases hf : field ∈ ALLOWED_FIELDS
      · simp only [update_retour_in_db, hf, if_true, Except.ok.injEq] at h
        rw [← h, map_scoped_eq_self hkey]
      · simp [update_retour_in_db, hf] at h
    · show ({ db2 with rows := _ } : Database) = db2
      have : db2.rows.filter (fun r => !retourKey X G2 r) = db2.rows :=
        List.filter_eq_self.mpr (fun r hr => by simp [hkey r hr])
      rw [this]

/-- Witness for C1 at the spec's example: create `(group 100, ref 5)` in an
empty store, then address everything under group 200. -/
theorem group_isolation_witness :
    ((100 : Int) ≠ 200)
    ∧ add_retour_to_db init_database 5 100 "" "12 Oak St" "" "drill"
        "Non définie" 1 = .ok db_c1
    ∧ (get_retour_by_message_id db_c1 5 200 = none
       ∧ (∀ page per_page : Nat,
           get_retours_paginated db_c1 200 page per_page =
             get_retours_paginated init_database 200 page per_page)
       ∧ (∀ page per_page : Nat,
           ∀ r ∈ (get_retours_paginated db_c1 200 page per_page).1,
           r.chat_id = 200)
       ∧ (∀ statut : String, update_statut_in_db db_c1 5 200 statut = db_c1)
       ∧ (∀ (field value : String) (db3 : Database),
           update_retour_in_db db_c1 5 200 field value = .ok db3 → db3 = db_c1)
       ∧ delete_retour_from_db db_c1 5 200 = db_c1) :=
  ⟨by decide, rfl,
   group_isolation init_database 100 200 5 "" "12 Oak St" "" "drill"
     "Non définie" 1 db_c1 (by decide)
     (by intro r hr; exact absurd hr (by simp [init_database])) rfl⟩

/-- Amended claim C9: when the commit-step persistence call fails, the
error is surfaced to the operator and no record is created (the store is
unchanged) — but the session accumulator is cleared, not preserved:
`context.user_data.clear()` runs on the failure path too. -/
theorem collect_extra_info_commit_failure (acc : RetourAccum)
    (input : Option String) (db : Database) (mid gcid : Int) (now : Nat)
    (hdup : ∃ r ∈ db.rows, retourKey mid gcid r) :
    (collect_extra_info acc input db mid gcid now).error_surfaced = true
    ∧ (collect_extra_info acc input db mid gcid now).record_created = false
    ∧ (collect_extra_info acc input db mid gcid now).db = db
    ∧ (collect_extra_info acc input db mid gcid now).user_data = none := by
  have hany : db.rows.any (retourKey mid gcid) = true :=
    List.any_eq_true.mpr hdup
  simp [collect_extra_info, add_retour_to_db, hany]

/-- Witness for the amended C9: a concrete failing commit (duplicate key)
surfaces the error, leaves the store unchanged and ends with a cleared
accumulator. -/
theorem collect_extra_info_commit_failure_witness :
    (∃ r ∈ db_c6.rows, retourKey 50 7 r)
    ∧ ((collect_extra_info acc_c9 none db_c6 50 7 100).error_surfaced = true
       ∧ (collect_extra_info acc_c9 none db_c6 50 7 100).record_created = false
       ∧ (collect_extra_info acc_c9 none db_c6 50 7 100).db = db_c6
       ∧ (collect_extra_info acc_c9 none db_c6 50 7 100).user_data = none) :=
  ⟨by decide, collect_extra_info_commit_failure acc_c9 none db_c6 50 7 100
    (by decide)⟩

/-- Counterexample to C9 as stated: on this concrete failing commit the
session accumulator is cleared (`user_data = none`), not preserved — the
operator's collected input is discarded even though the error is surfaced
and no record is created. -/
theorem collect_extra_info_not_preserving :
    (collect_extra_info acc_c9 none db_c6 50 7 100).error_surfaced = true
    ∧ (collect_extra_info acc_c9 none db_c6 50 7 100).record_created = false
    ∧ (collect_extra_info acc_c9 none db_c6 50 7 100).user_data = none
    ∧ (collect_extra_info acc_c9 none db_c6 50 7 100).user_data ≠
        some acc_c9 := by
  refine ⟨rfl, rfl, rfl, ?_⟩
  intro h
  exact Option.noConfusion (rfl.trans h)

/-- The pagination-order comparison is transitive. -/
theorem dateLe_trans (a b c : Retour) :
    dateLe a b = true → dateLe b c = true → dateLe a c = true := by
  simp only [dateLe, decide_eq_true_eq]
  omega

/-- The pagination-order comparison is total. -/
theorem dateLe_total (a b : Retour) : (dateLe a b || dateLe b a) = true := by
  simp only [dateLe, Bool.or_eq_true, decide_eq_true_eq]
  omega

/-- Chunking a list into `k`-sized pages by `drop`/`take` and concatenating
the pages over enough page indices reassembles the list. -/
theorem flatMap_take_drop {α : Type} (k : Nat) (hk : 0 < k) :
    ∀ (n : Nat) (l : List α), l.length ≤ n * k →
      (List.range n).flatMap (fun p => (l.drop (p * k)).take k) = l := by
  intro n
  induction n with
  | zero =>
    intro l h
    simp only [Nat.zero_mul, Nat.le_zero] at h
    rw [List.length_eq_zero.mp h]
    simp
  | succ n ih =>
    intro l h
    rw [List.range_succ_eq_map, List.flatMap_cons, List.flatMap_map]
    have hfun : (fun a => ((l.drop (Nat.succ a * k)).take k)) =
        (fun a => (((l.drop k).drop (a * k)).take k)) := by
      funext a
      rw [List.drop_drop, Nat.succ_mul, Nat.add_comm (a * k) k]
    rw [Nat.succ_mul] at h
    rw [hfun, ih (l.drop k) (by
      rw [List.length_drop]
      omega)]
    simp [List.take_append_drop]

/-- Ceiling division by 10 covers the numerator. -/
theorem le_ceil10_mul (N : Nat) : N ≤ ((N + 9) / 10) * 10 := by
  have h1 := Nat.div_add_mod (N + 9) 10
  have h2 : (N + 9) % 10 < 10 := Nat.mod_lt _ (by omega)
  omega

/-- Concatenating the pages `0 .. ceil(N/10)-1` of `get_retours_paginated`
reproduces the full `ORDER BY date_creation DESC` listing of the group. -/
theorem pages_flatMap_eq (db : Database) (chat_id : Int) :
    (List.range
        (((db.rows.filter (fun r => decide (r.chat_id = chat_id))).length + 9)
          / 10)).flatMap
      (fun p => (get_retours_paginated db chat_id p 10).1) =
    List.mergeSort (db.rows.filter (fun r => decide (r.chat_id = chat_id)))
      dateLe := by
  have hitems : ∀ p : Nat, (get_retours_paginated db chat_id p 10).1 =
      ((List.mergeSort
          (db.rows.filter (fun r => decide (r.chat_id = chat_id)))
          dateLe).drop (p * 10)).take 10 := fun p => rfl
  have hlen : (List.mergeSort
      (db.rows.filter (fun r => decide (r.chat_id = chat_id)))
      dateLe).length =
      (db.rows.filter (fun r => decide (r.chat_id = chat_id))).length :=
    (List.mergeSort_perm _ dateLe).length_eq
  have hcover : (List.mergeSort
      (db.rows.filter (fun r => decide (r.chat_id = chat_id)))
      dateLe).length ≤
      (((db.rows.filter (fun r => decide (r.chat_id = chat_id))).length + 9)
        / 10) * 10 := by
    rw [hlen]
    exact le_ceil10_mul _
  simp only [hitems]
  exact flatMap_take_drop 10 (by omega) _ _ hcover

/-- Claim C4: with `page_size = 10`, `get_retours_paginated` reports the
group's total row count `N` on every page, reports
`total_pages = ceil(N/10)` (which is `0` when `N = 0`), concatenating the
pages `0 .. ceil(N/10)-1` yields every record of the group exactly once
(a permutation of the group's rows), and every page is in descending
`created_at` order. -/
theorem pagination_partition (db : Database) (chat_id : Int) :
    (∀ page : Nat, (get_retours_paginated db chat_id page 10).2.1 =
      (db.rows.filter (fun r => decide (r.chat_id = chat_id))).length)
    ∧ (∀ page : Nat, (get_retours_paginated db chat_id page 10).2.2 =
      ((db.rows.filter (fun r => decide (r.chat_id = chat_id))).length + 9)
        / 10)
    ∧ ((db.rows.filter (fun r => decide (r.chat_id = chat_id))).length = 0 →
      ∀ page : Nat, (get_retours_paginated db chat_id page 10).2.2 = 0)
    ∧ ((List.range
          (((db.rows.filter (fun r => decide (r.chat_id = chat_id))).length
            + 9) / 10)).flatMap
        (fun p => (get_retours_paginated db chat_id p 10).1)).Perm
      (db.rows.filter (fun r => decide (r.chat_id = chat_id)))
    ∧ (∀ page : Nat,
      List.Pairwise (fun a b => b.date_creation ≤ a.date_creation)
        (get_retours_paginated db chat_id page 10).1) := by
  have htotal : ∀ page : Nat, (get_retours_paginated db chat_id page 10).2.1 =
      (db.rows.filter (fun r => decide (r.chat_id = chat_id))).length :=
    fun page => rfl
  have hpages : ∀ page : Nat, (get_retours_paginated db chat_id page 10).2.2 =
      ((db.rows.filter (fun r => decide (r.chat_id = chat_id))).length + 9)
        / 10 := by
    intro page
    show (if (db.rows.filter (fun r => decide (r.chat_id = chat_id))).length
        > 0 then
        ((db.rows.filter (fun r => decide (r.chat_id = chat_id))).length
          + 10 - 1) / 10
      else 0) = _
    by_cases h :
        (db.rows.filter (fun r => decide (r.chat_id = chat_id))).length > 0
    · rw [if_pos h]
      omega
    · rw [if_neg h]
      have h0 : (db.rows.filter
          (fun r => decide (r.chat_id = chat_id))).length = 0 := by omega
      rw [h0]
  refine ⟨htotal, hpages, ?_, ?_, ?_⟩
  · intro h0 page
    rw [hpages page, h0]
  · rw [pages_flatMap_eq]
    exact List.mergeSort_perm _ dateLe
  · intro page
    have hsorted : List.Pairwise (fun a b => dateLe a b = true)
        (List.mergeSort
          (db.rows.filter (fun r => decide (r.chat_id = chat_id))) dateLe) :=
      List.sorted_mergeSort dateLe_trans dateLe_total _
    have hsub : (get_retours_paginated db chat_id page 10).1.Sublist
        (List.mergeSort
          (db.rows.filter (fun r => decide (r.chat_id = chat_id))) dateLe) :=
      (List.take_sublist _ _).trans (List.drop_sublist _ _)
    exact (List.Pairwise.sublist hsub hsorted).imp (fun h => by
      simpa [dateLe] using h)

/-- Witness for C4's empty-group conjuncts: in the freshly initialised
store the group total is 0 and every reported page count is 0. -/
theorem pagination_partition_witness :
    ((init_database.rows.filter (fun r => decide (r.chat_id = 7))).length = 0)
    ∧ (∀ page : Nat, (get_retours_paginated init_database 7 page 10).2.2 = 0)
    :=
  ⟨rfl, (pagination_partition init_database 7).2.2.1 rfl⟩

/-- Amended claim C5: the `ORDER BY date_creation DESC` query carries no
`id` tie-break, and under the stable-ordering model two same-group records
with colliding `created_at` keep their insertion order — ascending `id`
for rows created by `add_retour_to_db` — both in the full listing and
across the concatenated pages (not descending `id` as claimed). -/
theorem tie_preserves_insertion_order (db : Database) (chat_id : Int)
    (r1 r2 : Retour)
    (hdate : r1.date_creation = r2.date_creation)
    (hsub : [r1, r2].Sublist
      (db.rows.filter (fun r => decide (r.chat_id = chat_id)))) :
    [r1, r2].Sublist (get_all_retours db chat_id)
    ∧ [r1, r2].Sublist
      ((List.range
          (((db.rows.filter (fun r => decide (r.chat_id = chat_id))).length
            + 9) / 10)).flatMap
        (fun p => (get_retours_paginated db chat_id p 10).1)) := by
  have hpair : List.Pairwise (fun a b => dateLe a b = true) [r1, r2] := by
    rw [List.pairwise_pair]
    simp [dateLe, hdate]
  have h1 : [r1, r2].Sublist
      (List.mergeSort
        (db.rows.filter (fun r => decide (r.chat_id = chat_id))) dateLe) :=
    List.sublist_mergeSort dateLe_trans dateLe_total hpair hsub
  exact ⟨h1, by rw [pages_flatMap_eq]; exact h1⟩

/-- Witness for the amended C5 on the concrete colliding-timestamp store
`db_c5`: the pair created first-id-1 then id-2 stays in that order. -/
theorem tie_preserves_insertion_order_witness :
    (db_c5.rows[0].date_creation = db_c5.rows[1].date_creation)
    ∧ [db_c5.rows[0], db_c5.rows[1]].Sublist
        (db_c5.rows.filter (fun r => decide (r.chat_id = 7)))
    ∧ ([db_c5.rows[0], db_c5.rows[1]].Sublist (get_all_retours db_c5 7)
       ∧ [db_c5.rows[0], db_c5.rows[1]].Sublist
         ((List.range
             (((db_c5.rows.filter (fun r => decide (r.chat_id = 7))).length
               + 9) / 10)).flatMap
           (fun p => (get_retours_paginated db_c5 7 p 10).1))) :=
  ⟨rfl, by decide,
   tie_preserves_insertion_order db_c5 7 db_c5.rows[0] db_c5.rows[1] rfl
     (by decide)⟩

/-- Counterexample to C5 as stated: two records of group 7 share
`date_creation = 100`; they were committed as id 1 then id 2, and the
listing returns them as `[1, 2]` — ascending ids on a timestamp collision,
not the claimed descending ids. -/
theorem listing_tie_not_id_descending :
    add_retour_to_db init_database 10 7 "" "a" "" "m" "d" 100 = .ok db_c5_mid
    ∧ add_retour_to_db db_c5_mid 11 7 "" "b" "" "m" "d" 100 = .ok db_c5
    ∧ (∀ r ∈ db_c5.rows, r.date_creation = 100 ∧ r.chat_id = 7)
    ∧ (get_retours_paginated db_c5 7 0 10).1.map (fun r => r.id) = [1, 2]
    ∧ ¬ ((get_retours_paginated db_c5 7 0 10).1.map (fun r => r.id) = [2, 1])
    := by
  have hsub : db_c5.rows.Sublist (List.mergeSort db_c5.rows dateLe) :=
    List.sublist_mergeSort dateLe_trans dateLe_total (by decide)
      (List.Sublist.refl _)
  have hlen : (List.mergeSort db_c5.rows dateLe).length =
      db_c5.rows.length :=
    (List.mergeSort_perm db_c5.rows dateLe).length_eq
  have keq : List.mergeSort db_c5.rows dateLe = db_c5.rows :=
    (hsub.eq_of_length hlen.symm).symm
  have hitems : (get_retours_paginated db_c5 7 0 10).1 =
      (List.mergeSort db_c5.rows dateLe).take 10 := rfl
  refine ⟨rfl, rfl, by decide, ?_, ?_⟩
  · rw [hitems, keq]
    rfl
  · rw [hitems, keq]
    decide

/-! Lemmas about the Python string primitives. -/

/-- Boolean `startswith` agrees with the prefix order. -/
theorem startsWith_iff {l s : List Char} : l.isPrefixOf s = true ↔ l <+: s :=
   List.isPrefixOf_iff_prefix

/-- A list starts with itself in front of anything. -/
theorem startsWith_append_self (l s : List Char) :
    l.isPrefixOf (l ++ s) = true :=
  startsWith_iff.mpr (List.prefix_append l s)

/-- Mismatching heads refute `startswith`. -/
theorem startsWith_cons_false {a b : Char} (t s : List Char) (h : a ≠ b) :
    (a :: t).isPrefixOf (b :: s) = false := by
  simp [List.isPrefixOf, h]

/-- A prefix is in particular a contiguous substring. -/
theorem infixFromStart {l s : List Char} (h : l <+: s) : l <:+: s :=
   List.IsPrefix.isInfix h

/-- A non-occurring token with a head different from `c` still does not
occur after consing `c`. -/
theorem not_infix_cons_of_head_ne {t0 c : Char} {tt s : List Char}
    (hne : t0 ≠ c) (h : ¬ (t0 :: tt) <:+: s) : ¬ (t0 :: tt) <:+: (c :: s) := by
  intro hx
  rcases List.infix_cons_iff.mp hx with hpre | hinf
  · exact hne (List.cons_prefix_cons.mp hpre).1
  · exact h hinf

/-- If `dropWhile` keeps a cons intact, its head fails the predicate. -/
theorem head_false_of_dropWhile_self {p : Char → Bool} {c : Char}
    {cs : List Char} (h : (c :: cs).dropWhile p = c :: cs) : p c = false := by
  by_contra hx
  have hc : p c = true := by
    cases hpc : p c
    · exact absurd hpc hx
    · rfl
  rw [List.dropWhile_cons, if_pos hc] at h
  have := ( List.dropWhile_suffix p (l := cs)).sublist.length_le
  rw [h] at this
  simp at this

/-- A trimmed string is untouched by the leading `dropWhile`. -/
theorem dropWhile_eq_self_of_trimmed (s : List Char) (h : pyStrip s = s) :
    s.dropWhile pyIsSpace = s := by
  apply ( List.dropWhile_suffix pyIsSpace).eq_of_length
  have hle1 : (s.dropWhile pyIsSpace).length ≤ s.length :=
    ( List.dropWhile_suffix pyIsSpace).sublist.length_le
  have hle2 : (pyStrip s).length ≤ (s.dropWhile pyIsSpace).length := by
    show ((((s.dropWhile pyIsSpace).reverse.dropWhile
      pyIsSpace)).reverse).length ≤ _
    rw [List.length_reverse]
    calc ((s.dropWhile pyIsSpace).reverse.dropWhile pyIsSpace).length
        ≤ (s.dropWhile pyIsSpace).reverse.length :=
          ( List.dropWhile_suffix pyIsSpace).sublist.length_le
      _ = (s.dropWhile pyIsSpace).length := List.length_reverse _
  have heq : (pyStrip s).length = s.length := by rw [h]
  omega

/-- A trimmed string is untouched by the trailing `dropWhile` (applied on
the reverse). -/
theorem dropWhile_reverse_eq_self_of_trimmed (s : List Char)
    (h : pyStrip s = s) : s.reverse.dropWhile pyIsSpace = s.reverse := by
  have h1 := dropWhile_eq_self_of_trimmed s h
  have h2 : (s.reverse.dropWhile pyIsSpace).reverse = s := by
    have h3 : pyStrip s = (s.reverse.dropWhile pyIsSpace).reverse := by
      show ((s.dropWhile pyIsSpace).reverse.dropWhile pyIsSpace).reverse = _
      rw [h1]
    rw [← h3, h]
  exact List.reverse_eq_iff.mp h2

/-- A nonempty left part whose `dropWhile` is itself shields the right part
of an append from the leading `dropWhile`. -/
theorem dropWhile_append_left (l r : List Char)
    (hl : l.dropWhile pyIsSpace = l) (hne : l ≠ []) :
    (l ++ r).dropWhile pyIsSpace = l ++ r := by
  cases l with
  | nil => exact absurd rfl hne
  | cons c cs =>
    have hc : pyIsSpace c = false := head_false_of_dropWhile_self hl
    rw [List.cons_append, List.dropWhile_cons, if_neg (by simp [hc])]

/-- Stripping a line made of a non-blank-headed constant part followed by a
trimmed, nonempty payload is the identity. -/
theorem pyStrip_token_line (c0 : Char) (pre x : List Char)
    (hc0 : pyIsSpace c0 = false) (hx : pyStrip x = x) (hne : x ≠ []) :
    pyStrip ((c0 :: pre) ++ x) = (c0 :: pre) ++ x := by
  have hfront : ((c0 :: pre) ++ x).dropWhile pyIsSpace = (c0 :: pre) ++ x := by
    rw [List.cons_append, List.dropWhile_cons, if_neg (by simp [hc0])]
  have hxrev : x.reverse.dropWhile pyIsSpace = x.reverse :=
    dropWhile_reverse_eq_self_of_trimmed x hx
  have hxrevne : x.reverse ≠ [] := by simpa using hne
  show ((((c0 :: pre) ++ x).dropWhile pyIsSpace).reverse.dropWhile
    pyIsSpace).reverse = _
  rw [hfront, List.reverse_append,
    dropWhile_append_left _ _ hxrev hxrevne, List.reverse_append,
    List.reverse_reverse, List.reverse_reverse]

/-- Stripping one leading blank off a trimmed payload recovers the
payload. -/
theorem pyStrip_space_cons (x : List Char) (hx : pyStrip x = x) :
    pyStrip (' ' :: x) = x := by
  show (((' ' :: x).dropWhile pyIsSpace).reverse.dropWhile
    pyIsSpace).reverse = x
  rw [List.dropWhile_cons, if_pos (by decide),
    dropWhile_eq_self_of_trimmed x hx,
    dropWhile_reverse_eq_self_of_trimmed x hx, List.reverse_reverse]

/-- Stripping keeps a non-blank head in place. -/
theorem pyStrip_head_keep (c : Char) (s : List Char)
    (hc : pyIsSpace c = false) : ∃ t, pyStrip (c :: s) = c :: t := by
  have hfront : (c :: s).dropWhile pyIsSpace = c :: s := by
    rw [List.dropWhile_cons, if_neg (by simp [hc])]
  have aux : ∀ z : List Char, ∃ y,
      (z ++ [c]).dropWhile pyIsSpace = y ++ [c] := by
    intro z
    induction z with
    | nil => exact ⟨[], by simp [List.dropWhile_cons, hc]⟩
    | cons a z' ih =>
      by_cases ha : pyIsSpace a
      · obtain ⟨y, hy⟩ := ih
        exact ⟨y, by
          rw [List.cons_append, List.dropWhile_cons, if_pos (by simpa using ha)]
          exact hy⟩
      · exact ⟨a :: z', by
          rw [List.cons_append, List.dropWhile_cons,
            if_neg (by simpa using ha)]⟩
  obtain ⟨y, hy⟩ := aux s.reverse
  refine ⟨y.reverse, ?_⟩
  show (((c :: s).dropWhile pyIsSpace).reverse.dropWhile pyIsSpace).reverse
    = _
  rw [hfront, List.reverse_cons, hy, List.reverse_append]
  rfl

/-- Splitting a text that begins with a newline emits one empty line. -/
theorem pySplitLines_cons_nl (rest : List Char) :
    pySplitLines ('\n' :: rest) = [] :: pySplitLines rest := by
  simp [pySplitLines]

/-- Splitting consumes a newline-free chunk up to the next newline as one
line. -/
theorem pySplitLines_chunk (l rest : List Char) (h : '\n' ∉ l) :
    pySplitLines (l ++ '\n' :: rest) = l :: pySplitLines rest := by
  induction l with
  | nil => simpa using pySplitLines_cons_nl rest
  | cons c l' ih =>
    have hc : c ≠ '\n' := by
      intro hx
      exact h (hx ▸ List.mem_cons_self c l')
    have hl' : '\n' ∉ l' := fun hx => h (List.mem_cons_of_mem c hx)
    show pySplitLines (c :: (l' ++ '\n' :: rest)) = _
    rw [pySplitLines, if_neg hc, ih hl']

/-- A newline-free text splits into itself as the single line. -/
theorem pySplitLines_last (l : List Char) (h : '\n' ∉ l) :
    pySplitLines l = [l] := by
  induction l with
  | nil => rfl
  | cons c l' ih =>
    have hc : c ≠ '\n' := by
      intro hx
      exact h (hx ▸ List.mem_cons_self c l')
    have hl' : '\n' ∉ l' := fun hx => h (List.mem_cons_of_mem c hx)
    rw [pySplitLines, if_neg hc, ih hl']

/-- `replace` walks over a head that does not start an occurrence. -/
theorem pyReplace_cons_no_match (tok new : List Char) (c : Char)
    (cs : List Char) (h : tok.isPrefixOf (c :: cs) = false) :
    pyReplace tok new (c :: cs) = c :: pyReplace tok new cs := by
  rw [pyReplace, dif_neg (by simp [h])]

/-- `replace` substitutes an occurrence sitting at the front and moves
past it without rescanning. -/
theorem pyReplace_head_match (tok new rest : List Char) (hne : tok ≠ []) :
    pyReplace tok new (tok ++ rest) = new ++ pyReplace tok new rest := by
  cases tok with
  | nil => exact absurd rfl hne
  | cons t0 tt =>
    show pyReplace (t0 :: tt) new ((t0 :: tt) ++ rest) = _
    rw [List.cons_append, pyReplace, dif_pos ⟨by
        rw [show t0 :: (tt ++ rest) = (t0 :: tt) ++ rest from rfl]
        exact startsWith_append_self (t0 :: tt) rest, by simp⟩]
    rw [show t0 :: (tt ++ rest) = (t0 :: tt) ++ rest from rfl, List.drop_left]

/-- `replace` is the identity when the token does not occur. -/
theorem pyReplace_no_occurrence (tok new : List Char) (s : List Char)
    (hne : tok ≠ []) (h : ¬ tok <:+: s) : pyReplace tok new s = s := by
  induction s with
  | nil => rw [pyReplace]
  | cons c cs ih =>
    rcases Bool.eq_false_or_eq_true (tok.isPrefixOf (c :: cs)) with hp | hp
    · exact absurd (infixFromStart (startsWith_iff.mp hp)) h
    · rw [pyReplace_cons_no_match _ _ _ _ hp,
        ih (fun hx => h ( List.infix_cons hx))]

/-! Lemmas about the parsing loop. -/

/-- A line matching none of the recognised prefixes leaves the dict
untouched. -/
theorem parse_line_skip (d : List (String × List Char)) (line : List Char)
    (h1 : "Klant :".data.isPrefixOf (pyStrip line) = false)
    (h2 : "Adres :".data.isPrefixOf (pyStrip line) = false)
    (h3 : "Te doen :".data.isPrefixOf (pyStrip line) = false)
    (h4 : "Extra informatie :".data.isPrefixOf (pyStrip line) = false)
    (h5 : "Materiaal :".data.isPrefixOf (pyStrip line) = false) :
    parse_line d line = d := by
  simp only [parse_line, h1, h2, h3, h4, h5, Bool.false_eq_true, if_false]

/-- The empty line is skipped. -/
theorem parse_line_nil (d : List (String × List Char)) :
    parse_line d [] = d :=
  parse_line_skip d [] (by decide) (by decide) (by decide) (by decide)
    (by decide)

/-- A line whose first character is not blank and differs from every
recognised prefix head is skipped. -/
theorem parse_line_other_head (d : List (String × List Char)) (c : Char)
    (s : List Char) (hc : pyIsSpace c = false)
    (h1 : 'K' ≠ c) (h2 : 'A' ≠ c) (h3 : 'T' ≠ c) (h4 : 'E' ≠ c)
    (h5 : 'M' ≠ c) :
    parse_line d (c :: s) = d := by
  obtain ⟨t, ht⟩ := pyStrip_head_keep c s hc
  refine parse_line_skip d (c :: s) ?_ ?_ ?_ ?_ ?_ <;> rw [ht]
  · rw [show "Klant :".data = 'K' :: "lant :".data from rfl]
    exact startsWith_cons_false _ _ h1
  · rw [show "Adres :".data = 'A' :: "dres :".data from rfl]
    exact startsWith_cons_false _ _ h2
  · rw [show "Te doen :".data = 'T' :: "e doen :".data from rfl]
    exact startsWith_cons_false _ _ h3
  · rw [show "Extra informatie :".data = 'E' :: "xtra informatie :".data
      from rfl]
    exact startsWith_cons_false _ _ h4
  · rw [show "Materiaal :".data = 'M' :: "ateriaal :".data from rfl]
    exact startsWith_cons_false _ _ h5

/-- An `Adres` line stores exactly the trimmed payload under `adresse`. -/
theorem parse_line_adres (d : List (String × List Char)) (a : List Char)
    (ht : pyStrip a = a) (hne : a ≠ []) (hni : ¬ "Adres :".data <:+: a) :
    parse_line d ("Adres : ".data ++ a) = dictSet "adresse" a d := by
  have hline : pyStrip ("Adres : ".data ++ a) = "Adres : ".data ++ a := by
    rw [show ("Adres : ".data ++ a) = ('A' :: "dres : ".data) ++ a from rfl]
    exact pyStrip_token_line 'A' "dres : ".data a (by decide) ht hne
  have hK : "Klant :".data.isPrefixOf ("Adres : ".data ++ a) = false := by
    rw [show "Klant :".data = 'K' :: "lant :".data from rfl,
      show ("Adres : ".data ++ a) = 'A' :: ("dres : ".data ++ a) from rfl]
    exact startsWith_cons_false _ _ (by decide)
  have hA : "Adres :".data.isPrefixOf ("Adres : ".data ++ a) = true := by
    rw [show ("Adres : ".data ++ a) = "Adres :".data ++ (' ' :: a) from rfl]
    exact startsWith_append_self _ _
  have hval : pyStrip (pyReplace "Adres :".data [] ("Adres : ".data ++ a))
      = a := by
    rw [show ("Adres : ".data ++ a) = "Adres :".data ++ (' ' :: a) from rfl,
      pyReplace_head_match _ _ _ (by decide)]
    have hsp : ¬ "Adres :".data <:+: (' ' :: a) := by
      rw [show "Adres :".data = 'A' :: "dres :".data from rfl] at hni ⊢
      exact not_infix_cons_of_head_ne (by decide) hni
    rw [pyReplace_no_occurrence _ _ _ (by decide) hsp]
    simp only [List.nil_append]
    exact pyStrip_space_cons a ht
  simp only [parse_line, hline, hK, hA, hval, Bool.false_eq_true, if_false,
    if_true]

/-- A `Materiaal` line stores exactly the trimmed payload under
`materiel`. -/
theorem parse_line_materiaal (d : List (String × List Char))
    (m : List Char) (ht : pyStrip m = m) (hne : m ≠ [])
    (hni : ¬ "Materiaal :".data <:+: m) :
    parse_line d ("Materiaal : ".data ++ m) = dictSet "materiel" m d := by
  have hline : pyStrip ("Materiaal : ".data ++ m) =
      "Materiaal : ".data ++ m := by
    rw [show ("Materiaal : ".data ++ m) = ('M' :: "ateriaal : ".data) ++ m
      from rfl]
    exact pyStrip_token_line 'M' "ateriaal : ".data m (by decide) ht hne
  have hcons : ("Materiaal : ".data ++ m) = 'M' :: ("ateriaal : ".data ++ m)
    := rfl
  have hK : "Klant :".data.isPrefixOf ("Materiaal : ".data ++ m) = false := by
    rw [show "Klant :".data = 'K' :: "lant :".data from rfl, hcons]
    exact startsWith_cons_false _ _ (by decide)
  have hA : "Adres :".data.isPrefixOf ("Materiaal : ".data ++ m) = false := by
    rw [show "Adres :".data = 'A' :: "dres :".data from rfl, hcons]
    exact startsWith_cons_false _ _ (by decide)
  have hT : "Te doen :".data.isPrefixOf ("Materiaal : ".data ++ m) = false
    := by
    rw [show "Te doen :".data = 'T' :: "e doen :".data from rfl, hcons]
    exact startsWith_cons_false _ _ (by decide)
  have hE : "Extra informatie :".data.isPrefixOf ("Materiaal : ".data ++ m)
      = false := by
    rw [show "Extra informatie :".data = 'E' :: "xtra informatie :".data
      from rfl, hcons]
    exact startsWith_cons_false _ _ (by decide)
  have hM : "Materiaal :".data.isPrefixOf ("Materiaal : ".data ++ m) = true
    := by
    rw [show ("Materiaal : ".data ++ m) = "Materiaal :".data ++ (' ' :: m)
      from rfl]
    exact startsWith_append_self _ _
  have hval : pyStrip (pyReplace "Materiaal :".data []
      ("Materiaal : ".data ++ m)) = m := by
    rw [show ("Materiaal : ".data ++ m) = "Materiaal :".data ++ (' ' :: m)
      from rfl, pyReplace_head_match _ _ _ (by decide)]
    have hsp : ¬ "Materiaal :".data <:+: (' ' :: m) := by
      rw [show "Materiaal :".data = 'M' :: "ateriaal :".data from rfl]
        at hni ⊢
      exact not_infix_cons_of_head_ne (by decide) hni
    rw [pyReplace_no_occurrence _ _ _ (by decide) hsp]
    simp only [List.nil_append]
    exact pyStrip_space_cons m ht
  simp only [parse_line, hline, hK, hA, hT, hE, hM, hval,
    Bool.false_eq_true, if_false, if_true]

/-- An `Extra informatie` line stores exactly the trimmed payload under
`extra_info`. -/
theorem parse_line_extra (d : List (String × List Char)) (e : List Char)
    (ht : pyStrip e = e) (hne : e ≠ [])
    (hni : ¬ "Extra informatie :".data <:+: e) :
    parse_line d ("Extra informatie : ".data ++ e) =
      dictSet "extra_info" e d := by
  have hline : pyStrip ("Extra informatie : ".data ++ e) =
      "Extra informatie : ".data ++ e := by
    rw [show ("Extra informatie : ".data ++ e) =
      ('E' :: "xtra informatie : ".data) ++ e from rfl]
    exact pyStrip_token_line 'E' "xtra informatie : ".data e (by decide)
      ht hne
  have hcons : ("Extra informatie : ".data ++ e) =
      'E' :: ("xtra informatie : ".data ++ e) := rfl
  have hK : "Klant :".data.isPrefixOf ("Extra informatie : ".data ++ e)
      = false := by
    rw [show "Klant :".data = 'K' :: "lant :".data from rfl, hcons]
    exact startsWith_cons_false _ _ (by decide)
  have hA : "Adres :".data.isPrefixOf ("Extra informatie : ".data ++ e)
      = false := by
    rw [show "Adres :".data = 'A' :: "dres :".data from rfl, hcons]
    exact startsWith_cons_false _ _ (by decide)
  have hT : "Te doen :".data.isPrefixOf ("Extra informatie : ".data ++ e)
      = false := by
    rw [show "Te doen :".data = 'T' :: "e doen :".data from rfl, hcons]
    exact startsWith_cons_false _ _ (by decide)
  have hE : "Extra informatie :".data.isPrefixOf
      ("Extra informatie : ".data ++ e) = true := by
    rw [show ("Extra informatie : ".data ++ e) =
      "Extra informatie :".data ++ (' ' :: e) from rfl]
    exact startsWith_append_self _ _
  have hval : pyStrip (pyReplace "Extra informatie :".data []
      ("Extra informatie : ".data ++ e)) = e := by
    rw [show ("Extra informatie : ".data ++ e) =
      "Extra informatie :".data ++ (' ' :: e) from rfl,
      pyReplace_head_match _ _ _ (by decide)]
    have hsp : ¬ "Extra informatie :".data <:+: (' ' :: e) := by
      rw [show "Extra informatie :".data = 'E' :: "xtra informatie :".data
        from rfl] at hni ⊢
      exact not_infix_cons_of_head_ne (by decide) hni
    rw [pyReplace_no_occurrence _ _ _ (by decide) hsp]
    simp only [List.nil_append]
    exact pyStrip_space_cons e ht
  simp only [parse_line, hline, hK, hA, hT, hE, hval,
    Bool.false_eq_true, if_false, if_true]

/-- Membership after a dict assignment: the new key or an old entry. -/
theorem mem_dictSet {k : String} {v : List Char}
    {d : List (String × List Char)} {kv : String × List Char}
    (h : kv ∈ dictSet k v d) : kv.1 = k ∨ kv ∈ d := by
  induction d with
  | nil =>
    simp only [dictSet, List.mem_singleton] at h
    exact Or.inl (by rw [h])
  | cons p rest ih =>
    obtain ⟨k', v'⟩ := p
    by_cases hk : k = k'
    · simp only [dictSet, hk, if_true] at h
      rcases List.mem_cons.mp h with h1 | h1
      · exact Or.inl (by rw [h1]; exact hk.symm)
      · exact Or.inr (List.mem_cons_of_mem _ h1)
    · simp only [dictSet, hk, if_false] at h
      rcases List.mem_cons.mp h with h1 | h1
      · exact Or.inr (by rw [h1]; exact List.mem_cons_self _ _)
      · rcases ih h1 with h2 | h2
        · exact Or.inl h2
        · exact Or.inr (List.mem_cons_of_mem _ h2)

/-- Every entry produced by one parsing step carries a recognised key or
was already present. -/
theorem parse_line_keys {d : List (String × List Char)} {line : List Char}
    {kv : String × List Char} (h : kv ∈ parse_line d line) :
    kv.1 ∈ (["nom", "adresse", "description", "extra_info", "materiel"] :
      List String) ∨ kv ∈ d := by
  simp only [parse_line] at h
  split at h
  · exact (mem_dictSet h).imp (fun h1 => by simp [h1]) id
  · split at h
    · exact (mem_dictSet h).imp (fun h1 => by simp [h1]) id
    · split at h
      · exact (mem_dictSet h).imp (fun h1 => by simp [h1]) id
      · split at h
        · exact (mem_dictSet h).imp (fun h1 => by simp [h1]) id
        · split at h
          · exact (mem_dictSet h).imp (fun h1 => by simp [h1]) id
          · exact Or.inr h

/-- The parsing fold keeps every key inside the recognised set. -/
theorem foldl_parse_line_keys (lines : List (List Char)) :
    ∀ d : List (String × List Char),
      (∀ kv ∈ d, kv.1 ∈ (["nom", "adresse", "description", "extra_info",
        "materiel"] : List String)) →
      ∀ kv ∈ lines.foldl parse_line d,
        kv.1 ∈ (["nom", "adresse", "description", "extra_info",
          "materiel"] : List String) := by
  induction lines with
  | nil => exact fun d hd kv h => hd kv h
  | cons line rest ih =>
    intro d hd kv h
    refine ih (parse_line d line) ?_ kv h
    intro kv2 h2
    rcases parse_line_keys h2 with h3 | h3
    · exact h3
    · exact hd kv2 h3

/-- Claim C8: `parse_retour_message` is total — in this model it is a plain
function on every input text, mirroring that the source's loop body cannot
raise (its `try` guard never fires) — its result only ever holds the
recognised keys `nom`, `adresse`, `description`, `extra_info`, `materiel`,
and any line that does not start (after stripping) with one of the five
recognised prefixes is silently skipped, contributing nothing. -/
theorem parse_legacy_total (text : List Char) :
    (∀ kv ∈ parse_retour_message text,
      kv.1 ∈ (["nom", "adresse", "description", "extra_info", "materiel"] :
        List String))
    ∧ (∀ (d : List (String × List Char)) (line : List Char),
        "Klant :".data.isPrefixOf (pyStrip line) = false →
        "Adres :".data.isPrefixOf (pyStrip line) = false →
        "Te doen :".data.isPrefixOf (pyStrip line) = false →
        "Extra informatie :".data.isPrefixOf (pyStrip line) = false →
        "Materiaal :".data.isPrefixOf (pyStrip line) = false →
        parse_line d line = d) := by
  constructor
  · exact foldl_parse_line_keys (pySplitLines text) [] (by simp)
  · exact fun d line h1 h2 h3 h4 h5 => parse_line_skip d line h1 h2 h3 h4 h5

/-- Witness for C8: a concrete two-line text with no recognised prefix
parses with only recognised keys (here: to nothing), and a concrete
unrecognised line leaves a concrete dict unchanged. -/
theorem parse_legacy_total_witness :
    (∀ kv ∈ parse_retour_message "geen velden\nhier".data,
      kv.1 ∈ (["nom", "adresse", "description", "extra_info", "materiel"] :
        List String))
    ∧ ("Klant :".data.isPrefixOf (pyStrip "hallo wereld".data) = false
       ∧ "Adres :".data.isPrefixOf (pyStrip "hallo wereld".data) = false
       ∧ "Te doen :".data.isPrefixOf (pyStrip "hallo wereld".data) = false
       ∧ "Extra informatie :".data.isPrefixOf (pyStrip "hallo wereld".data)
          = false
       ∧ "Materiaal :".data.isPrefixOf (pyStrip "hallo wereld".data) = false
       ∧ parse_line [("adresse", "X".data)] "hallo wereld".data =
          [("adresse", "X".data)]) :=
  ⟨(parse_legacy_total "geen velden\nhier".data).1,
   by decide, by decide, by decide, by decide, by decide,
   (parse_legacy_total "geen velden\nhier".data).2 [("adresse", "X".data)]
     "hallo wereld".data (by decide) (by decide) (by decide) (by decide)
     (by decide)⟩

/-! Lemmas about the renderer. -/

/-- Every character of the decimal rendering is a digit. -/
theorem natToChars_digit (n : Nat) : ∀ c ∈ natToChars n, c.isDigit = true := by
  induction n using Nat.strong_induction_on with
  | _ n ih =>
    intro c hc
    rw [natToChars] at hc
    by_cases h : n < 10
    · rw [if_pos h] at hc
      simp only [List.mem_singleton] at hc
      subst hc
      interval_cases n <;> decide
    · rw [if_neg h] at hc
      rcases List.mem_append.mp hc with h1 | h1
      · exact ih (n / 10) (Nat.div_lt_self (by omega) (by omega)) c h1
      · simp only [List.mem_singleton] at h1
        subst h1
        have hm : n % 10 < 10 := Nat.mod_lt _ (by omega)
        set k := n % 10 with hk
        interval_cases k <;> decide

/-- No newline in a decimal rendering. -/
theorem notNl_natToChars (n : Nat) : '\n' ∉ natToChars n := by
  intro h
  exact absurd (natToChars_digit n '\n' h) (by decide)

/-- No newline in a zero-padded rendering. -/
theorem notNl_pad2 (n : Nat) : '\n' ∉ pad2 n := by
  intro hmem
  rw [pad2] at hmem
  by_cases h : n < 10
  · rw [if_pos h] at hmem
    rcases List.mem_cons.mp hmem with h1 | h1
    · exact absurd h1 (by decide)
    · exact notNl_natToChars n h1
  · rw [if_neg h] at hmem
    exact notNl_natToChars n hmem

/-- No newline in any month abbreviation. -/
theorem notNl_mois (i : Nat) : '\n' ∉ mois_nl.getD i [] := by
  by_cases h : i < mois_nl.length
  · have hi : mois_nl.getD i [] = mois_nl[i] := by
      simp [List.getD, List.getElem?_eq_getElem h]
    rw [hi]
    have hmem := List.getElem_mem h
    have hall : ∀ x ∈ mois_nl, '\n' ∉ x := by decide
    exact hall _ hmem
  · rw [List.getD_eq_default _ _ (Nat.le_of_not_lt h)]
    exact List.not_mem_nil _

/-- The formatted creation date contains no newline when the raw timestamp
contains none. -/
theorem notNl_format_date (dOpt : Option (List Char))
    (hd : ∀ s, dOpt = some s → '\n' ∉ s) :
    '\n' ∉ format_date_creation dOpt := by
  cases dOpt with
  | none => exact (by decide : '\n' ∉ "Onbekend".data)
  | some s =>
    have hs := hd s rfl
    simp only [format_date_creation]
    by_cases hnil : s = []
    · rw [if_pos hnil]
      exact (by decide : '\n' ∉ "Onbekend".data)
    · rw [if_neg hnil]
      rcases hp : strptimeYmdHMS (s.takeWhile (fun c => c ≠ '.')) with _ |
        ⟨year, month, day, hour, minute, sec⟩
      · exact hs
      · show '\n' ∉ natToChars day ++ " ".data ++ mois_nl.getD (month - 1) []
          ++ " ".data ++ natToChars year ++ " om ".data ++ pad2 hour ++
          ":".data ++ pad2 minute
        intro hmem
        simp only [List.mem_append] at hmem
        rcases hmem with ((((((((h | h) | h) | h) | h) | h) | h) | h) | h)
        · exact notNl_natToChars day h
        · exact absurd h (by decide)
        · exact notNl_mois (month - 1) h
        · exact absurd h (by decide)
        · exact notNl_natToChars year h
        · exact absurd h (by decide)
        · exact notNl_pad2 hour h
        · exact absurd h (by decide)
        · exact notNl_pad2 minute h

/-- Splitting consumes a two-part newline-free chunk as one line. -/
theorem pySplitLines_chunk2 (l1 l2 rest : List Char) (h1 : '\n' ∉ l1)
    (h2 : '\n' ∉ l2) :
    pySplitLines (l1 ++ (l2 ++ '\n' :: rest)) =
      (l1 ++ l2) :: pySplitLines rest := by
  rw [← List.append_assoc]
  refine pySplitLines_chunk (l1 ++ l2) rest ?_
  intro hx
  rcases List.mem_append.mp hx with h | h
  · exact h1 h
  · exact h2 h

/-- Splitting consumes a three-part newline-free chunk as one line. -/
theorem pySplitLines_chunk3 (l1 l2 l3 rest : List Char) (h1 : '\n' ∉ l1)
    (h2 : '\n' ∉ l2) (h3 : '\n' ∉ l3) :
    pySplitLines (l1 ++ (l2 ++ (l3 ++ '\n' :: rest))) =
      (l1 ++ (l2 ++ l3)) :: pySplitLines rest := by
  rw [show l1 ++ (l2 ++ (l3 ++ '\n' :: rest)) =
    (l1 ++ (l2 ++ l3)) ++ '\n' :: rest by simp [List.append_assoc]]
  refine pySplitLines_chunk _ rest ?_
  intro hx
  rcases List.mem_append.mp hx with h | h
  · exact h1 h
  rcases List.mem_append.mp h with h | h
  · exact h2 h
  · exact h3 h

/-- A final two-part newline-free chunk is the last line. -/
theorem pySplitLines_last2 (l1 l2 : List Char) (h1 : '\n' ∉ l1)
    (h2 : '\n' ∉ l2) : pySplitLines (l1 ++ l2) = [l1 ++ l2] := by
  refine pySplitLines_last _ ?_
  intro hx
  rcases List.mem_append.mp hx with h | h
  · exact h1 h
  · exact h2 h

/-- The rendered record splits back into exactly its seven lines. -/
theorem render_lines (a desc m e statut : List Char)
    (dOpt : Option (List Char))
    (ha : '\n' ∉ a) (hm : '\n' ∉ m) (he : '\n' ∉ e) (hene : e ≠ [])
    (hd : ∀ s, dOpt = some s → '\n' ∉ s) :
    pySplitLines (format_retour_message a desc m statut dOpt (some e)) =
      ["🔁 AFWERKING".data, [], "Adres : ".data ++ a,
       "Materiaal : ".data ++ m, "Extra informatie : ".data ++ e,
       (if statut = "fait".data then "✅".data else "⏳".data) ++
         (" Status : ".data ++
          (if statut = "fait".data then "Gedaan".data
           else "In afwachting".data)),
       "📅 Gemaakt op : ".data ++ format_date_creation dOpt] := by
  have hE : '\n' ∉ (if statut = "fait".data then "✅".data else "⏳".data)
    := by
    by_cases hs : statut = "fait".data
    · rw [if_pos hs]; decide
    · rw [if_neg hs]; decide
  have hS : '\n' ∉ (if statut = "fait".data then "Gedaan".data
      else "In afwachting".data) := by
    by_cases hs : statut = "fait".data
    · rw [if_pos hs]; decide
    · rw [if_neg hs]; decide
  have hmsg : format_retour_message a desc m statut dOpt (some e) =
      "🔁 AFWERKING".data ++ '\n' :: '\n' ::
        ("Adres : ".data ++ (a ++ '\n' ::
          ("Materiaal : ".data ++ (m ++ '\n' ::
            ("Extra informatie : ".data ++ (e ++ '\n' ::
              ((if statut = "fait".data then "✅".data else "⏳".data) ++
                (" Status : ".data ++
                 ((if statut = "fait".data then "Gedaan".data
                   else "In afwachting".data) ++ '\n' ::
                  ("📅 Gemaakt op : ".data ++
                    format_date_creation dOpt)))))))))) := by
    simp only [format_retour_message]
    rw [if_pos hene]
    simp only [show "🔁 AFWERKING\n\n".data =
        "🔁 AFWERKING".data ++ '\n' :: ['\n'] from by decide,
      show "\n".data = ['\n'] from rfl,
      List.append_assoc, List.cons_append, List.singleton_append,
      List.nil_append]
  rw [hmsg,
    pySplitLines_chunk _ _ (by decide),
    pySplitLines_cons_nl,
    pySplitLines_chunk2 _ _ _ (by decide) ha,
    pySplitLines_chunk2 _ _ _ (by decide) hm,
    pySplitLines_chunk2 _ _ _ (by decide) he,
    pySplitLines_chunk3 _ _ _ _ hE (by decide) hS,
    pySplitLines_last2 _ _ (by decide) (notNl_format_date dOpt hd)]

/-- Amended claim C7: `parse_retour_message ∘ format_retour_message`
recovers `adresse`, `materiel` and the notes field (`extra_info`)
byte-for-byte for every record whose three fields are populated,
single-line, trimmed (no leading or trailing whitespace — which the form
flow guarantees, since every collected input is `.strip()`-ed), and do not
contain their own field label (the stated claim fails without these
conditions because the parser re-strips each line and deletes every
occurrence of the label). -/
theorem render_parse_round_trip (a desc m e statut : List Char)
    (dOpt : Option (List Char))
    (ha1 : pyStrip a = a) (ha2 : a ≠ []) (ha3 : '\n' ∉ a)
    (ha4 : ¬ "Adres :".data <:+: a)
    (hm1 : pyStrip m = m) (hm2 : m ≠ []) (hm3 : '\n' ∉ m)
    (hm4 : ¬ "Materiaal :".data <:+: m)
    (he1 : pyStrip e = e) (he2 : e ≠ []) (he3 : '\n' ∉ e)
    (he4 : ¬ "Extra informatie :".data <:+: e)
    (hd : ∀ s, dOpt = some s → '\n' ∉ s) :
    dictGet "adresse" (parse_retour_message
      (format_retour_message a desc m statut dOpt (some e))) = some a
    ∧ dictGet "materiel" (parse_retour_message
      (format_retour_message a desc m statut dOpt (some e))) = some m
    ∧ dictGet "extra_info" (parse_retour_message
      (format_retour_message a desc m statut dOpt (some e))) = some e := by
  have hlines := render_lines a desc m e statut dOpt ha3 hm3 he3 he2 hd
  have s0 : parse_line [] "🔁 AFWERKING".data = [] := by
    rw [show "🔁 AFWERKING".data = '🔁' :: " AFWERKING".data from rfl]
    exact parse_line_other_head _ _ _ (by decide) (by decide) (by decide)
      (by decide) (by decide) (by decide)
  have t2 : parse_line [] ("Adres : ".data ++ a) = [("adresse", a)] := by
    rw [parse_line_adres [] a ha1 ha2 ha4]
    rfl
  have t3 : parse_line [("adresse", a)] ("Materiaal : ".data ++ m) =
      [("adresse", a), ("materiel", m)] := by
    rw [parse_line_materiaal _ m hm1 hm2 hm4]
    simp only [dictSet]
    rw [if_neg (by decide)]
  have t4 : parse_line [("adresse", a), ("materiel", m)]
      ("Extra informatie : ".data ++ e) =
      [("adresse", a), ("materiel", m), ("extra_info", e)] := by
    rw [parse_line_extra _ e he1 he2 he4]
    simp only [dictSet]
    rw [if_neg (by decide), if_neg (by decide)]
  have t5 : parse_line [("adresse", a), ("materiel", m), ("extra_info", e)]
      ((if statut = "fait".data then "✅".data else "⏳".data) ++
        (" Status : ".data ++
         (if statut = "fait".data then "Gedaan".data
          else "In afwachting".data))) =
      [("adresse", a), ("materiel", m), ("extra_info", e)] := by
    by_cases hs : statut = "fait".data
    · rw [if_pos hs, if_pos hs]
      rw [show "✅".data ++ (" Status : ".data ++ "Gedaan".data) =
        '✅' :: (" Status : ".data ++ "Gedaan".data) from rfl]
      exact parse_line_other_head _ _ _ (by decide) (by decide) (by decide)
        (by decide) (by decide) (by decide)
    · rw [if_neg hs, if_neg hs]
      rw [show "⏳".data ++ (" Status : ".data ++ "In afwachting".data) =
        '⏳' :: (" Status : ".data ++ "In afwachting".data) from rfl]
      exact parse_line_other_head _ _ _ (by decide) (by decide) (by decide)
        (by decide) (by decide) (by decide)
  have t6 : parse_line [("adresse", a), ("materiel", m), ("extra_info", e)]
      ("📅 Gemaakt op : ".data ++ format_date_creation dOpt) =
      [("adresse", a), ("materiel", m), ("extra_info", e)] := by
    rw [show "📅 Gemaakt op : ".data ++ format_date_creation dOpt =
      '📅' :: (" Gemaakt op : ".data ++ format_date_creation dOpt) from rfl]
    exact parse_line_other_head _ _ _ (by decide) (by decide) (by decide)
      (by decide) (by decide) (by decide)
  have hparse : parse_retour_message
      (format_retour_message a desc m statut dOpt (some e)) =
      [("adresse", a), ("materiel", m), ("extra_info", e)] := by
    show (pySplitLines
      (format_retour_message a desc m statut dOpt (some e))).foldl
        parse_line [] = _
    rw [hlines]
    simp only [List.foldl_cons, List.foldl_nil]
    rw [s0, parse_line_nil, t2, t3, t4, t5, t6]
  refine ⟨?_, ?_, ?_⟩ <;> rw [hparse]
  · rw [show dictGet "adresse"
      [("adresse", a), ("materiel", m), ("extra_info", e)] = some a from rfl]
  · rw [show dictGet "materiel"
      [("adresse", a), ("materiel", m), ("extra_info", e)] = some m from rfl]
  · rw [show dictGet "extra_info"
      [("adresse", a), ("materiel", m), ("extra_info", e)] = some e from rfl]

/-- Witness for the amended C7: a concrete record with all three fields
populated round-trips byte-for-byte through render and parse. -/
theorem render_parse_round_trip_witness :
    (pyStrip "12 Oak St".data = "12 Oak St".data ∧ "12 Oak St".data ≠ []
      ∧ '\n' ∉ "12 Oak St".data ∧ ¬ "Adres :".data <:+: "12 Oak St".data)
    ∧ (pyStrip "drill, 3 keys".data = "drill, 3 keys".data
      ∧ "drill, 3 keys".data ≠ [] ∧ '\n' ∉ "drill, 3 keys".data
      ∧ ¬ "Materiaal :".data <:+: "drill, 3 keys".data)
    ∧ (pyStrip "bel eerst".data = "bel eerst".data
      ∧ "bel eerst".data ≠ [] ∧ '\n' ∉ "bel eerst".data
      ∧ ¬ "Extra informatie :".data <:+: "bel eerst".data)
    ∧ (dictGet "adresse" (parse_retour_message (format_retour_message
        "12 Oak St".data [] "drill, 3 keys".data "en_attente".data
        (some "2024-12-19 14:30:00".data) (some "bel eerst".data))) =
        some "12 Oak St".data
      ∧ dictGet "materiel" (parse_retour_message (format_retour_message
        "12 Oak St".data [] "drill, 3 keys".data "en_attente".data
        (some "2024-12-19 14:30:00".data) (some "bel eerst".data))) =
        some "drill, 3 keys".data
      ∧ dictGet "extra_info" (parse_retour_message (format_retour_message
        "12 Oak St".data [] "drill, 3 keys".data "en_attente".data
        (some "2024-12-19 14:30:00".data) (some "bel eerst".data))) =
        some "bel eerst".data) :=
  ⟨⟨by decide, by decide, by decide, by decide⟩,
   ⟨by decide, by decide, by decide, by decide⟩,
   ⟨by decide, by decide, by decide, by decide⟩,
   render_parse_round_trip "12 Oak St".data [] "drill, 3 keys".data
     "bel eerst".data "en_attente".data (some "2024-12-19 14:30:00".data)
     (by decide) (by decide) (by decide) (by decide)
     (by decide) (by decide) (by decide) (by decide)
     (by decide) (by decide) (by decide) (by decide)
     (fun s hs => by cases hs; decide)⟩

/-- Counterexample to C7 as stated: the record with the populated address
`"Adres : X"` (and populated materials and notes) does not round-trip —
the parser deletes every occurrence of the label `Adres :` and re-strips,
returning `"X"`. -/
theorem parse_render_not_inverse :
    dictGet "adresse" (parse_retour_message (format_retour_message
      "Adres : X".data [] "M".data "en_attente".data none
      (some "E".data))) = some "X".data
    ∧ ("X".data : List Char) ≠ "Adres : X".data := by
  have hlines := render_lines "Adres : X".data [] "M".data "E".data
    "en_attente".data none (by decide) (by decide) (by decide) (by decide)
    (fun s hs => nomatch hs)
  have s0 : parse_line [] "🔁 AFWERKING".data = [] := by
    rw [show "🔁 AFWERKING".data = '🔁' :: " AFWERKING".data from rfl]
    exact parse_line_other_head _ _ _ (by decide) (by decide) (by decide)
      (by decide) (by decide) (by decide)
  have hval : pyStrip (pyReplace "Adres :".data []
      ("Adres : ".data ++ "Adres : X".data)) = "X".data := by
    rw [show ("Adres : ".data ++ "Adres : X".data) =
      "Adres :".data ++ (' ' :: "Adres : X".data) from rfl,
      pyReplace_head_match _ _ _ (by decide),
      pyReplace_cons_no_match _ _ _ _ (by decide),
      show "Adres : X".data = "Adres :".data ++ (' ' :: "X".data) from rfl,
      pyReplace_head_match _ _ _ (by decide),
      pyReplace_no_occurrence _ _ _ (by decide) (by decide)]
    decide
  have t2 : parse_line [] ("Adres : ".data ++ "Adres : X".data) =
      [("adresse", "X".data)] := by
    have hline : pyStrip ("Adres : ".data ++ "Adres : X".data) =
        "Adres : ".data ++ "Adres : X".data := by decide
    simp only [parse_line, hline, hval]
    rw [if_neg (by decide), if_pos (by decide)]
    rfl
  have t3 : parse_line [("adresse", "X".data)]
      ("Materiaal : ".data ++ "M".data) =
      [("adresse", "X".data), ("materiel", "M".data)] := by
    rw [parse_line_materiaal _ "M".data (by decide) (by decide) (by decide)]
    simp only [dictSet]
    rw [if_neg (by decide)]
  have t4 : parse_line [("adresse", "X".data), ("materiel", "M".data)]
      ("Extra informatie : ".data ++ "E".data) =
      [("adresse", "X".data), ("materiel", "M".data),
       ("extra_info", "E".data)] := by
    rw [parse_line_extra _ "E".data (by decide) (by decide) (by decide)]
    simp only [dictSet]
    rw [if_neg (by decide), if_neg (by decide)]
  have t5 : parse_line [("adresse", "X".data), ("materiel", "M".data),
      ("extra_info", "E".data)]
      ((if ("en_attente".data : List Char) = "fait".data then "✅".data
        else "⏳".data) ++ (" Status : ".data ++
        (if ("en_attente".data : List Char) = "fait".data then "Gedaan".data
         else "In afwachting".data))) =
      [("adresse", "X".data), ("materiel", "M".data),
       ("extra_info", "E".data)] := by
    rw [if_neg (by decide), if_neg (by decide)]
    rw [show "⏳".data ++ (" Status : ".data ++ "In afwachting".data) =
      '⏳' :: (" Status : ".data ++ "In afwachting".data) from rfl]
    exact parse_line_other_head _ _ _ (by decide) (by decide) (by decide)
      (by decide) (by decide) (by decide)
  have t6 : parse_line [("adresse", "X".data), ("materiel", "M".data),
      ("extra_info", "E".data)]
      ("📅 Gemaakt op : ".data ++ format_date_creation none) =
      [("adresse", "X".data), ("materiel", "M".data),
       ("extra_info", "E".data)] := by
    rw [show "📅 Gemaakt op : ".data ++ format_date_creation none =
      '📅' :: (" Gemaakt op : ".data ++ format_date_creation none) from rfl]
    exact parse_line_other_head _ _ _ (by decide) (by decide) (by decide)
      (by decide) (by decide) (by decide)
  have hparse : parse_retour_message (format_retour_message
      "Adres : X".data [] "M".data "en_attente".data none
      (some "E".data)) =
      [("adresse", "X".data), ("materiel", "M".data),
       ("extra_info", "E".data)] := by
    show (pySplitLines (format_retour_message "Adres : X".data [] "M".data
      "en_attente".data none (some "E".data))).foldl parse_line [] = _
    rw [hlines]
    simp only [List.foldl_cons, List.foldl_nil]
    rw [s0, parse_line_nil, t2, t3, t4, t5, t6]
  constructor
  · rw [hparse]
    rw [show dictGet "adresse" [("adresse", "X".data),
      ("materiel", "M".data), ("extra_info", "E".data)] = some "X".data
      from rfl]
  · decide

end Slotenbot
